import Mathlib

/-!
# configcat-exporter: scrape orchestration and metric store

A shallow embedding of `internal/exporter/exporter.go`, `internal/metrics/metrics.go`,
`internal/config/config.go` and `pkg/types/types.go`.

Modelling conventions

* A Prometheus `Gauge` holds the number last written by `Set`.  Every value this
  program writes is `float64` of a slice length, of a running sum of slice
  lengths, the constants `0` and `1`, or the clock reading; these conversions are
  exact for all counts below `2 ^ 53`, more elements than a slice of these structs
  can hold in a 64-bit address space, so a gauge value is a `Nat`; for the same
  reason the `int` accumulator `zombieflagCount` does not wrap.
* A `GaugeVec` is a finite map from label-value tuples to gauges; it is a function
  `List String → Option Nat`, `none` meaning that no child exists for the tuple.
* A `Counter` is a `Nat` and `Inc` adds one.
* A `Histogram` is the list of observed samples, most recent first.
* The remote API client is a black box: its answers are inputs of a cycle.
* The logger and the mutex have no effect on the metric store and are left out.
* Label values are `String`s, hence valid UTF-8, so `WithLabelValues` does not panic.
* `time.NewTicker` panics on a non-positive interval; `StartScraping` then yields
  `none`.
-/

namespace ConfigCat

/-! ## pkg/types/types.go -/

/-- Go `types.Config` (the name `Config` alone is kept for `config.Config`). -/
structure types.Config where
  ConfigID : String
  Name : String
deriving DecidableEq, Repr

/-- Go `types.Environment`. -/
structure Environment where
  EnvironmentID : String
  Name : String
deriving DecidableEq, Repr

/-- Go `types.FeatureFlag`. -/
structure FeatureFlag where
  SettingID : Int
  Key : String
  Name : String
  Hint : String
deriving DecidableEq, Repr

/-- Element type of `Tags` inside `types.ZombieFlag`. -/
structure ZombieTag where
  TagID : Int
  SettingTagID : Int
deriving DecidableEq, Repr

/-- Element type of `SettingValues` inside `types.ZombieFlag`; `UpdatedAt` is the
timestamp as a number. -/
structure ZombieSettingValue where
  EnvironmentID : String
  UpdatedAt : Int
  IsStale : Bool
deriving DecidableEq, Repr

/-- Element type of `Settings` inside `types.ZombieFlag`. -/
structure ZombieSetting where
  SettingID : Int
  Name : String
  Key : String
  Hint : String
  HasCodeReferences : Bool
  Tags : List ZombieTag
  SettingValues : List ZombieSettingValue
deriving DecidableEq, Repr

/-- Element type of `Configs` inside `types.ZombieFlag`: one config group. -/
structure ZombieConfig where
  ConfigID : String
  Name : String
  EvaluationVersion : String
  HasCodeReferences : Bool
  Settings : List ZombieSetting
deriving DecidableEq, Repr

/-- Element type of `Environments` inside `types.ZombieFlag`. -/
structure ZombieEnvironment where
  EnvironmentID : String
  Name : String
deriving DecidableEq, Repr

/-- Go `types.ZombieFlag`: the stale-flag report of a product. -/
structure ZombieFlag where
  ProductID : String
  Name : String
  Configs : List ZombieConfig
  Environments : List ZombieEnvironment
deriving DecidableEq, Repr

/-! ## internal/config/config.go -/

/-- Go `config.Config`. -/
structure Config where
  ConfigCatAPIKey : String
  Port : Int
  ScrapeInterval : Int
  LogLevel : String
  ConfigCatAPIURL : String
  OrganizationID : String
  ProductID : String
deriving DecidableEq, Repr

/-- Go `(*Config).Validate`: the returned error, `none` for `nil`. -/
def Config.Validate (c : Config) : Option String :=
  if c.ConfigCatAPIKey = "" then some "ConfigCat API key is required"
  else if c.OrganizationID = "" then some "ConfigCat Organization ID is required"
  else if c.ProductID = "" then some "ConfigCat Product ID is required"
  else none

/-- The part of `*cli.Context` that `Load` reads: the value of an integer flag and of
a string flag, by flag name. -/
structure cli.Context where
  Int : String → Int
  String : String → String

/-- The block `// Override with CLI flags if provided` of `Load`. -/
def overrideWithFlags (c : cli.Context) (config : Config) : Config :=
  let config :=
    if c.String "configcat-api-key" ≠ "" then
      { config with ConfigCatAPIKey := c.String "configcat-api-key" }
    else config
  let config := if c.Int "port" ≠ 8080 then { config with Port := c.Int "port" } else config
  let config :=
    if c.Int "scrape-interval" ≠ 60 then
      { config with ScrapeInterval := c.Int "scrape-interval" }
    else config
  let config :=
    if c.String "log-level" ≠ "info" then { config with LogLevel := c.String "log-level" }
    else config
  let config :=
    if c.String "organization-id" ≠ "" then
      { config with OrganizationID := c.String "organization-id" }
    else config
  let config :=
    if c.String "product-id" ≠ "" then { config with ProductID := c.String "product-id" }
    else config
  config

/-- Go `config.Load`.  `envParse` is the outcome of `env.Parse(config)` on the empty
configuration: the configuration filled from the environment, or the error of the
parser.  The result is the returned configuration, or the returned error when the
configuration is `nil`. -/
def Load (envParse : Except String Config) (c : cli.Context) : Except String Config :=
  match envParse with
  | .error err => .error ("parsing config from environment: " ++ err)
  | .ok config =>
    let config := overrideWithFlags c config
    match config.Validate with
    | some err => .error err
    | none => .ok config

/-! ## internal/metrics/metrics.go -/

/-- A labelled gauge family: the child gauge of each label-value tuple, if any. -/
abbrev GaugeVec := List String → Option Nat

namespace GaugeVec

/-- A family without children, as `prometheus.NewGaugeVec` returns it. -/
def empty : GaugeVec := fun _ => none

/-- The effect of `v.WithLabelValues(lvs...).Set(x)`: the child of `lvs` is created
when missing and holds `x`; the other children are untouched. -/
def set (v : GaugeVec) (lvs : List String) (x : Nat) : GaugeVec :=
  fun k => if k = lvs then some x else v k

/-- The effect of `v.Reset()`: all children are deleted. -/
def reset (_v : GaugeVec) : GaugeVec := empty

end GaugeVec

/-- Go `metrics.Metrics`. -/
structure Metrics where
  ConfigsTotal : GaugeVec
  EnvironmentsTotal : GaugeVec
  FeatureFlagsTotal : GaugeVec
  LastScrapeTime : Nat
  ProductsTotal : Nat
  ScrapeDuration : List Nat
  ScrapeErrors : Nat
  ZombieFlagsTotal : GaugeVec

/-- Go `metrics.New`: every gauge and the counter start at zero, every family and
the histogram start empty. -/
def Metrics.New : Metrics :=
  { ConfigsTotal := GaugeVec.empty
    EnvironmentsTotal := GaugeVec.empty
    FeatureFlagsTotal := GaugeVec.empty
    LastScrapeTime := 0
    ProductsTotal := 0
    ScrapeDuration := []
    ScrapeErrors := 0
    ZombieFlagsTotal := GaugeVec.empty }

/-- Go `(*Metrics).Reset`. -/
def Metrics.Reset (m : Metrics) : Metrics :=
  { m with
    ProductsTotal := 0
    ConfigsTotal := m.ConfigsTotal.reset
    EnvironmentsTotal := m.EnvironmentsTotal.reset
    FeatureFlagsTotal := m.FeatureFlagsTotal.reset
    ZombieFlagsTotal := m.ZombieFlagsTotal.reset }

/-! ## internal/client/configcat.go, as seen by the exporter -/

/-- The answers of the remote API during one cycle.  An `Except.error` carries the
message of the Go `error`.  `GetFeatureFlags i id` is the answer to the `i`-th
per-config request of the cycle, made for config id `id`: the remote may answer two
requests for the same id differently. -/
structure ConfigCatClient where
  GetConfigs : String → Except String (List types.Config)
  GetEnvironments : String → Except String (List Environment)
  GetZombieFlags : String → Except String ZombieFlag
  GetFeatureFlags : Nat → String → Except String (List FeatureFlag)

/-! ## internal/exporter/exporter.go -/

/-- The loop `for _, zombieConfig := range zombieflags.Configs` of `scrapeMetrics`,
started with the accumulator `zombieflagCount`.  Returns the family and the final
accumulator. -/
def zombieLoop (productID productName : String) :
    List ZombieConfig → Nat → GaugeVec → GaugeVec × Nat
  | [], zombieflagCount, v => (v, zombieflagCount)
  | zombieConfig :: rest, zombieflagCount, v =>
    let zombieflagCount := zombieflagCount + zombieConfig.Settings.length
    zombieLoop productID productName rest zombieflagCount
      (v.set [productID, productName, zombieConfig.ConfigID, zombieConfig.Name] zombieflagCount)

/-- The loop `for _, config := range configs` of `scrapeMetrics`; `i` is the number
of per-config requests already made in this cycle. -/
def featureFlagsLoop (client : ConfigCatClient) (productID productName : String) :
    List types.Config → Nat → Metrics → Metrics
  | [], _, m => m
  | config :: rest, i, m =>
    match client.GetFeatureFlags i config.ConfigID with
    | .error _ =>
      featureFlagsLoop client productID productName rest (i + 1)
        { m with ScrapeErrors := m.ScrapeErrors + 1 }
    | .ok featureFlags =>
      featureFlagsLoop client productID productName rest (i + 1)
        { m with FeatureFlagsTotal :=
            (m.FeatureFlagsTotal.set [productID, productName, config.ConfigID, config.Name]
              featureFlags.length) }

/-- The body of `scrapeMetrics` between taking the lock and returning: the new
store and the returned error (`none` for `nil`).  `now` is the clock reading taken
by `SetToCurrentTime`. -/
def scrapeBody (cfg : Config) (client : ConfigCatClient) (now : Nat) (m : Metrics) :
    Metrics × Option String :=
  let m := { m with ProductsTotal := 1 }
  match client.GetConfigs cfg.ProductID with
  | .error err => ({ m with ScrapeErrors := m.ScrapeErrors + 1 }, some ("getting configs: " ++ err))
  | .ok configs =>
    match client.GetEnvironments cfg.ProductID with
    | .error err =>
      ({ m with ScrapeErrors := m.ScrapeErrors + 1 }, some ("getting environments: " ++ err))
    | .ok environments =>
      match client.GetZombieFlags cfg.ProductID with
      | .error err =>
        ({ m with ScrapeErrors := m.ScrapeErrors + 1 }, some ("getting zombieflags: " ++ err))
      | .ok zombieflags =>
        let productName := "product-" ++ cfg.ProductID
        let m := { m with
          ConfigsTotal := m.ConfigsTotal.set [cfg.ProductID, productName] configs.length }
        let m := { m with
          EnvironmentsTotal :=
            (m.EnvironmentsTotal.set [cfg.ProductID, productName] environments.length) }
        let m := { m with
          ZombieFlagsTotal :=
            (zombieLoop cfg.ProductID productName zombieflags.Configs 0 m.ZombieFlagsTotal).1 }
        let m := featureFlagsLoop client cfg.ProductID productName configs 0 m
        ({ m with LastScrapeTime := now }, none)

/-- Go `(*Exporter).scrapeMetrics`: the body, followed by the deferred
`timer.ObserveDuration()` that records the elapsed time of the cycle on every
return path. -/
def scrapeMetrics (cfg : Config) (client : ConfigCatClient) (now elapsed : Nat) (m : Metrics) :
    Metrics × Option String :=
  let r := scrapeBody cfg client now m
  ({ r.1 with ScrapeDuration := elapsed :: r.1.ScrapeDuration }, r.2)

/-- One outcome of the `select` in the loop of `StartScraping`: the context is done
or the ticker fired. -/
inductive Event where
  | done
  | tick
deriving DecidableEq, Repr

/-- What one cycle meets: the answers of the remote API, the clock reading at its end
and the elapsed time the deferred timer observes. -/
structure CycleInput where
  client : ConfigCatClient
  now : Nat
  elapsed : Nat

/-- Wrap-around of a 64-bit signed integer operation. -/
def toInt64 (x : Int) : Int := (x + 2 ^ 63) % 2 ^ 64 - 2 ^ 63

/-- The ticker interval `time.Duration(e.config.ScrapeInterval) * time.Second`, in
nanoseconds, computed in `int64`. -/
def tickerInterval (cfg : Config) : Int := toInt64 (cfg.ScrapeInterval * 1000000000)

/-- The `for { select { ... } }` loop of `StartScraping` run on the select outcomes
it observes, `n` cycles having run before.  Returns the store and the `err` value of
each cycle it ran, in order.  When the observed outcomes end without `done`, the loop
is blocked in `select` and the result is the state reached so far. -/
def selectLoop (cfg : Config) (world : Nat → CycleInput) :
    List Event → Nat → Metrics → Metrics × List (Option String)
  | [], _, m => (m, [])
  | .done :: _, _, m => (m, [])
  | .tick :: rest, n, m =>
    let r := scrapeMetrics cfg (world n).client (world n).now (world n).elapsed m
    let out := selectLoop cfg world rest (n + 1) r.1
    (out.1, r.2 :: out.2)

/-- Go `(*Exporter).StartScraping`; `world n` is what cycle number `n` meets.
`time.NewTicker` panics when its argument is not positive: the result is then `none`
and nothing else has happened.  Otherwise the initial scrape runs and the loop
follows; the result is the store and the `err` value of every cycle run, in order. -/
def StartScraping (cfg : Config) (world : Nat → CycleInput) (events : List Event)
    (m : Metrics) : Option (Metrics × List (Option String)) :=
  if tickerInterval cfg ≤ 0 then none
  else
    let r := scrapeMetrics cfg (world 0).client (world 0).now (world 0).elapsed m
    let out := selectLoop cfg world events 1 r.1
    some (out.1, r.2 :: out.2)

/-! ## Vocabulary of the claims -/

/-- Whether a fetch answered with an error. -/
def failed {α : Type} : Except String α → Bool
  | .error _ => true
  | .ok _ => false

/-- The configs the cycle fetched; none when the configs fetch failed. -/
def fetchedConfigs (cfg : Config) (client : ConfigCatClient) : List types.Config :=
  match client.GetConfigs cfg.ProductID with
  | .ok configs => configs
  | .error _ => []

/-- The config groups of the stale-flag report the cycle fetched; none when the
stale-flag fetch failed. -/
def fetchedGroups (cfg : Config) (client : ConfigCatClient) : List ZombieConfig :=
  match client.GetZombieFlags cfg.ProductID with
  | .ok zombieflags => zombieflags.Configs
  | .error _ => []

/-- The number of configs in `configs` whose feature-flag fetch fails, the config at
position `k` being served by request number `k`. -/
def failedFlagFetches (client : ConfigCatClient) (configs : List types.Config) : Nat :=
  (configs.enum.filter (fun p => failed (client.GetFeatureFlags p.1 p.2.ConfigID))).length

/-- Outcome 1: the configs fetch fails. -/
def abortOnConfigs (cfg : Config) (client : ConfigCatClient) : Bool :=
  failed (client.GetConfigs cfg.ProductID)

/-- Outcome 2: the configs fetch succeeds and the environments fetch fails. -/
def abortOnEnvironments (cfg : Config) (client : ConfigCatClient) : Bool :=
  !failed (client.GetConfigs cfg.ProductID) && failed (client.GetEnvironments cfg.ProductID)

/-- Outcome 3: configs and environments succeed and the stale-flag fetch fails. -/
def abortOnStale (cfg : Config) (client : ConfigCatClient) : Bool :=
  !failed (client.GetConfigs cfg.ProductID) && !failed (client.GetEnvironments cfg.ProductID)
    && failed (client.GetZombieFlags cfg.ProductID)

/-- The three product-level fetches all succeed. -/
def productFetchesOk (cfg : Config) (client : ConfigCatClient) : Bool :=
  !failed (client.GetConfigs cfg.ProductID) && !failed (client.GetEnvironments cfg.ProductID)
    && !failed (client.GetZombieFlags cfg.ProductID)

/-- Outcome 4: every fetch of the cycle succeeds. -/
def fullSuccess (cfg : Config) (client : ConfigCatClient) : Bool :=
  productFetchesOk cfg client && failedFlagFetches client (fetchedConfigs cfg client) == 0

/-- Outcome 5: the product-level fetches succeed and some feature-flag fetch fails. -/
def partialSuccess (cfg : Config) (client : ConfigCatClient) : Bool :=
  productFetchesOk cfg client && failedFlagFetches client (fetchedConfigs cfg client) != 0

/-- The gauges of a store: the two scalar gauges and the four families, without
the counter and the histogram. -/
structure Gauges where
  ProductsTotal : Nat
  LastScrapeTime : Nat
  ConfigsTotal : GaugeVec
  EnvironmentsTotal : GaugeVec
  FeatureFlagsTotal : GaugeVec
  ZombieFlagsTotal : GaugeVec

/-- The gauge values a store exposes. -/
def Metrics.gauges (m : Metrics) : Gauges :=
  { ProductsTotal := m.ProductsTotal
    LastScrapeTime := m.LastScrapeTime
    ConfigsTotal := m.ConfigsTotal
    EnvironmentsTotal := m.EnvironmentsTotal
    FeatureFlagsTotal := m.FeatureFlagsTotal
    ZombieFlagsTotal := m.ZombieFlagsTotal }

/-! ## Concrete cycles used to exercise the statements -/

/-- A valid configuration for product `p1`. -/
def cfgP1 : Config :=
  { ConfigCatAPIKey := "key", Port := 8080, ScrapeInterval := 60, LogLevel := "info",
    ConfigCatAPIURL := "https://api.configcat.com", OrganizationID := "org", ProductID := "p1" }

/-- A command line without flags: every flag reads as its default. -/
def noFlags : cli.Context :=
  { Int := fun name => if name = "port" then 8080 else if name = "scrape-interval" then 60 else 0
    String := fun name => if name = "log-level" then "info" else "" }

/-- The environment gives an API key and an organization id and an empty product id. -/
def cfgNoProduct : Config := { cfgP1 with ProductID := "" }

/-- A feature flag with the given setting id. -/
def flagN (n : Int) : FeatureFlag := { SettingID := n, Key := "k", Name := "f", Hint := "" }

/-- A stale setting with the given setting id. -/
def staleN (n : Int) : ZombieSetting :=
  { SettingID := n, Name := "s", Key := "k", Hint := "", HasCodeReferences := false,
    Tags := [], SettingValues := [] }

/-- A config group of a stale-flag report. -/
def groupOf (id name : String) (settings : List ZombieSetting) : ZombieConfig :=
  { ConfigID := id, Name := name, EvaluationVersion := "v1", HasCodeReferences := false,
    Settings := settings }

/-- One config `c1`, one environment `e1`, three flags for `c1`, one stale group `c1`
with two settings; every fetch succeeds. -/
def clientOk : ConfigCatClient :=
  { GetConfigs := fun _ => .ok [{ ConfigID := "c1", Name := "Config1" }]
    GetEnvironments := fun _ => .ok [{ EnvironmentID := "e1", Name := "Env1" }]
    GetZombieFlags := fun p =>
      .ok { ProductID := p, Name := "P", Configs := [groupOf "c1" "Config1" [staleN 1, staleN 2]],
            Environments := [] }
    GetFeatureFlags := fun _ _ => .ok [flagN 1, flagN 2, flagN 3] }

/-- Two configs `c1` and `c2`; the feature-flag fetch fails for `c2` and returns two
flags for `c1`; two stale groups with two and three settings. -/
def clientPartial : ConfigCatClient :=
  { GetConfigs := fun _ =>
      .ok [{ ConfigID := "c1", Name := "Config1" }, { ConfigID := "c2", Name := "Config2" }]
    GetEnvironments := fun _ => .ok [{ EnvironmentID := "e1", Name := "Env1" }]
    GetZombieFlags := fun p =>
      .ok { ProductID := p, Name := "P",
            Configs := [groupOf "c1" "Config1" [staleN 1, staleN 2],
                        groupOf "c2" "Config2" [staleN 3, staleN 4, staleN 5]],
            Environments := [] }
    GetFeatureFlags := fun _ id =>
      if id = "c2" then .error "status 500" else .ok [flagN 1, flagN 2] }

/-- The configs fetch fails. -/
def clientNoConfigs : ConfigCatClient :=
  { clientOk with GetConfigs := fun _ => .error "status 500" }

/-- The configs fetch succeeds and the environments fetch fails. -/
def clientNoEnvironments : ConfigCatClient :=
  { clientOk with GetEnvironments := fun _ => .error "status 500" }

/-- Configs and environments succeed and the stale-flag fetch fails. -/
def clientNoStale : ConfigCatClient :=
  { clientOk with GetZombieFlags := fun _ => .error "status 500" }

/-- A store as left by earlier cycles: every gauge holds a value that a cycle of
`clientOk` would not write. -/
def usedStore : Metrics :=
  { ConfigsTotal := GaugeVec.empty.set ["p1", "product-p1"] 7
    EnvironmentsTotal := GaugeVec.empty.set ["p1", "product-p1"] 4
    FeatureFlagsTotal := GaugeVec.empty.set ["p1", "product-p1", "c9", "Gone"] 12
    LastScrapeTime := 1700000000
    ProductsTotal := 1
    ScrapeDuration := [2]
    ScrapeErrors := 5
    ZombieFlagsTotal := GaugeVec.empty.set ["p1", "product-p1", "c9", "Gone"] 6 }

/-- The store after one fully successful cycle on a freshly constructed store. -/
def storeAfterFirstCycle : Metrics :=
  (scrapeMetrics cfgP1 clientOk 1700000000 2 Metrics.New).1

/-! ## Frame lemmas for the two loops -/

theorem featureFlagsLoop_frame (client : ConfigCatClient) (pid pn : String) (configs : List types.Config) :
    ∀ (i : Nat) (m : Metrics),
      (featureFlagsLoop client pid pn configs i m).ConfigsTotal = m.ConfigsTotal ∧
      (featureFlagsLoop client pid pn configs i m).EnvironmentsTotal = m.EnvironmentsTotal ∧
      (featureFlagsLoop client pid pn configs i m).ZombieFlagsTotal = m.ZombieFlagsTotal ∧
      (featureFlagsLoop client pid pn configs i m).LastScrapeTime = m.LastScrapeTime ∧
      (featureFlagsLoop client pid pn configs i m).ProductsTotal = m.ProductsTotal ∧
      (featureFlagsLoop client pid pn configs i m).ScrapeDuration = m.ScrapeDuration := by
  induction configs with
  | nil => intro i m; simp [featureFlagsLoop]
  | cons c rest ih =>
    intro i m
    unfold featureFlagsLoop
    cases h : client.GetFeatureFlags i c.ConfigID with
    | error e => simpa using ih (i + 1) _
    | ok ffs => simpa using ih (i + 1) _

theorem featureFlagsLoop_errors (client : ConfigCatClient) (pid pn : String) (configs : List types.Config) :
    ∀ (i : Nat) (m : Metrics),
      (featureFlagsLoop client pid pn configs i m).ScrapeErrors =
        m.ScrapeErrors +
          ((configs.enumFrom i).filter
            (fun p => failed (client.GetFeatureFlags p.1 p.2.ConfigID))).length := by
  induction configs with
  | nil => intro i m; simp [featureFlagsLoop]
  | cons c rest ih =>
    intro i m
    unfold featureFlagsLoop
    cases h : client.GetFeatureFlags i c.ConfigID with
    | error e =>
      simp only [List.enumFrom_cons]
      rw [ih (i + 1), List.filter_cons]
      simp [h, failed]
      omega
    | ok ffs =>
      simp only [List.enumFrom_cons]
      rw [ih (i + 1), List.filter_cons]
      simp [h, failed]

theorem GaugeVec.set_same (v : GaugeVec) (k : List String) (x : Nat) :
    (v.set k x) k = some x := by
  simp [GaugeVec.set]

theorem GaugeVec.set_other (v : GaugeVec) (k k1 : List String) (x : Nat) (h : k1 ≠ k) :
    (v.set k x) k1 = v k1 := by
  simp [GaugeVec.set, h]

theorem GaugeVec.set_isSome (v : GaugeVec) (k k1 : List String) (x : Nat)
    (h : (v k1).isSome = true) : ((v.set k x) k1).isSome = true := by
  unfold GaugeVec.set
  split
  · rfl
  · exact h

/-- The per-config loop leaves every key alone that belongs to none of its configs. -/
theorem featureFlagsLoop_untouched (client : ConfigCatClient) (pid pn : String) (k : List String)
    (configs : List types.Config) :
    ∀ (i : Nat) (m : Metrics), (∀ c ∈ configs, k ≠ [pid, pn, c.ConfigID, c.Name]) →
      (featureFlagsLoop client pid pn configs i m).FeatureFlagsTotal k =
        m.FeatureFlagsTotal k := by
  induction configs with
  | nil => intro i m _; simp [featureFlagsLoop]
  | cons c rest ih =>
    intro i m hk
    have hrest : ∀ c1 ∈ rest, k ≠ [pid, pn, c1.ConfigID, c1.Name] :=
      fun c1 h1 => hk c1 (List.mem_cons_of_mem _ h1)
    have hhead : k ≠ [pid, pn, c.ConfigID, c.Name] := hk c (List.mem_cons_self _ _)
    unfold featureFlagsLoop
    cases h : client.GetFeatureFlags i c.ConfigID with
    | error e => simpa using ih (i + 1) _ hrest
    | ok ffs =>
      simp only
      rw [ih (i + 1) _ hrest]
      exact GaugeVec.set_other _ _ _ _ hhead

/-- With pairwise distinct config ids, the gauge of the config at position `j` is
decided by request `i + j` alone: the size of the answer, or the old value on error. -/
theorem featureFlagsLoop_at (client : ConfigCatClient) (pid pn : String) (configs : List types.Config) :
    ∀ (i : Nat) (m : Metrics), (configs.map (fun c => c.ConfigID)).Nodup →
      ∀ (j : Nat) (c : types.Config), configs[j]? = some c →
        (featureFlagsLoop client pid pn configs i m).FeatureFlagsTotal
            [pid, pn, c.ConfigID, c.Name] =
          match client.GetFeatureFlags (i + j) c.ConfigID with
          | .ok ffs => some ffs.length
          | .error _ => m.FeatureFlagsTotal [pid, pn, c.ConfigID, c.Name] := by
  induction configs with
  | nil => intro i m _ j c hj; simp at hj
  | cons c0 rest ih =>
    intro i m hnd j c hj
    rw [List.map_cons, List.nodup_cons] at hnd
    obtain ⟨hnot, hnd1⟩ := hnd
    have hfresh : ∀ c1 ∈ rest, [pid, pn, c0.ConfigID, c0.Name] ≠
        [pid, pn, c1.ConfigID, c1.Name] := by
      intro c1 h1 heq
      apply hnot
      have hid : c0.ConfigID = c1.ConfigID := by
        simp only [List.cons.injEq, true_and, and_true] at heq
        exact heq.1
      rw [hid]
      exact List.mem_map_of_mem _ h1
    cases j with
    | zero =>
      simp only [List.getElem?_cons_zero, Option.some.injEq] at hj
      subst hj
      unfold featureFlagsLoop
      simp only [Nat.add_zero]
      cases h : client.GetFeatureFlags i c0.ConfigID with
      | error e =>
        simp only
        rw [featureFlagsLoop_untouched client pid pn _ rest (i + 1) _ hfresh]
      | ok ffs =>
        simp only
        rw [featureFlagsLoop_untouched client pid pn _ rest (i + 1) _ hfresh]
        exact GaugeVec.set_same _ _ _
    | succ j1 =>
      simp only [List.getElem?_cons_succ] at hj
      have hmem : c ∈ rest := List.getElem?_mem hj
      have hne : [pid, pn, c.ConfigID, c.Name] ≠ [pid, pn, c0.ConfigID, c0.Name] :=
        fun heq => hfresh c hmem heq.symm
      have hidx : i + (j1 + 1) = i + 1 + j1 := by omega
      unfold featureFlagsLoop
      rw [hidx]
      cases h : client.GetFeatureFlags i c0.ConfigID with
      | error e =>
        simp only
        rw [ih (i + 1) _ hnd1 j1 c hj]
      | ok ffs =>
        simp only
        rw [ih (i + 1) _ hnd1 j1 c hj]
        cases client.GetFeatureFlags (i + 1 + j1) c.ConfigID with
        | error e => exact GaugeVec.set_other _ _ _ _ hne
        | ok ffs1 => rfl

/-- The feature-flags family after the per-config loop depends on the store only
through the feature-flags family before it. -/
theorem featureFlagsLoop_congr (client : ConfigCatClient) (pid pn : String) (configs : List types.Config) :
    ∀ (i : Nat) (m1 m2 : Metrics), m1.FeatureFlagsTotal = m2.FeatureFlagsTotal →
      (featureFlagsLoop client pid pn configs i m1).FeatureFlagsTotal =
        (featureFlagsLoop client pid pn configs i m2).FeatureFlagsTotal := by
  induction configs with
  | nil => intro i m1 m2 h; simpa [featureFlagsLoop] using h
  | cons c rest ih =>
    intro i m1 m2 h
    unfold featureFlagsLoop
    cases client.GetFeatureFlags i c.ConfigID with
    | error e => exact ih (i + 1) _ _ h
    | ok ffs => exact ih (i + 1) _ _ (by simp [h])

/-- The per-config loop never deletes a key of the feature-flags family. -/
theorem featureFlagsLoop_isSome (client : ConfigCatClient) (pid pn : String) (k : List String)
    (configs : List types.Config) :
    ∀ (i : Nat) (m : Metrics), (m.FeatureFlagsTotal k).isSome = true →
      ((featureFlagsLoop client pid pn configs i m).FeatureFlagsTotal k).isSome = true := by
  induction configs with
  | nil => intro i m h; simpa [featureFlagsLoop] using h
  | cons c rest ih =>
    intro i m h
    unfold featureFlagsLoop
    cases client.GetFeatureFlags i c.ConfigID with
    | error e => exact ih (i + 1) _ h
    | ok ffs => exact ih (i + 1) _ (GaugeVec.set_isSome _ _ _ _ h)

/-- The stale-flag loop leaves every key alone that belongs to none of its groups. -/
theorem zombieLoop_untouched (pid pn : String) (k : List String) (groups : List ZombieConfig) :
    ∀ (acc : Nat) (v : GaugeVec), (∀ g ∈ groups, k ≠ [pid, pn, g.ConfigID, g.Name]) →
      (zombieLoop pid pn groups acc v).1 k = v k := by
  induction groups with
  | nil => intro acc v _; simp [zombieLoop]
  | cons g rest ih =>
    intro acc v hk
    unfold zombieLoop
    simp only
    rw [ih _ _ (fun g1 h1 => hk g1 (List.mem_cons_of_mem _ h1))]
    exact GaugeVec.set_other _ _ _ _ (hk g (List.mem_cons_self _ _))

/-- With pairwise distinct (config id, name) pairs, the gauge of group `i` holds the
accumulator after group `i`: the start value plus the sizes of groups `0` to `i`. -/
theorem zombieLoop_at (pid pn : String) (groups : List ZombieConfig) :
    ∀ (acc : Nat) (v : GaugeVec), (groups.map (fun g => (g.ConfigID, g.Name))).Nodup →
      ∀ (i : Nat) (g : ZombieConfig), groups[i]? = some g →
        (zombieLoop pid pn groups acc v).1 [pid, pn, g.ConfigID, g.Name] =
          some (acc + ((groups.take (i + 1)).map (fun g => g.Settings.length)).sum) := by
  induction groups with
  | nil => intro acc v _ i g hi; simp at hi
  | cons g0 rest ih =>
    intro acc v hnd i g hi
    rw [List.map_cons, List.nodup_cons] at hnd
    obtain ⟨hnot, hnd1⟩ := hnd
    cases i with
    | zero =>
      simp only [List.getElem?_cons_zero, Option.some.injEq] at hi
      subst hi
      unfold zombieLoop
      simp only
      rw [zombieLoop_untouched]
      · simp [GaugeVec.set_same]
      · intro g1 h1 heq
        apply hnot
        have hp : (g0.ConfigID, g0.Name) = (g1.ConfigID, g1.Name) := by simpa using heq
        rw [hp]
        exact List.mem_map_of_mem _ h1
    | succ i1 =>
      simp only [List.getElem?_cons_succ] at hi
      unfold zombieLoop
      simp only
      rw [ih _ _ hnd1 i1 g hi]
      simp [List.take_succ_cons, Nat.add_assoc]

/-- The stale-flag loop never deletes a key of the zombie-flags family. -/
theorem zombieLoop_isSome (pid pn : String) (k : List String) (groups : List ZombieConfig) :
    ∀ (acc : Nat) (v : GaugeVec), (v k).isSome = true →
      ((zombieLoop pid pn groups acc v).1 k).isSome = true := by
  induction groups with
  | nil => intro acc v h; simpa [zombieLoop] using h
  | cons g rest ih =>
    intro acc v h
    unfold zombieLoop
    exact ih _ _ (GaugeVec.set_isSome _ _ _ _ h)

/-! ## C1 -/

/-- C1: after a cycle the scrape-error counter is its old value plus the number of
failed fetch steps: one for each of the three aborting outcomes, none on full
success, the number of failed per-config fetches on partial success; and exactly one
of the five outcomes holds. -/
theorem scrapeMetrics_error_delta (cfg : Config) (client : ConfigCatClient) (now elapsed : Nat)
    (m : Metrics) :
    (abortOnConfigs cfg client = true →
      (scrapeMetrics cfg client now elapsed m).1.ScrapeErrors = m.ScrapeErrors + 1) ∧
    (abortOnEnvironments cfg client = true →
      (scrapeMetrics cfg client now elapsed m).1.ScrapeErrors = m.ScrapeErrors + 1) ∧
    (abortOnStale cfg client = true →
      (scrapeMetrics cfg client now elapsed m).1.ScrapeErrors = m.ScrapeErrors + 1) ∧
    (fullSuccess cfg client = true →
      (scrapeMetrics cfg client now elapsed m).1.ScrapeErrors = m.ScrapeErrors) ∧
    (partialSuccess cfg client = true →
      (scrapeMetrics cfg client now elapsed m).1.ScrapeErrors =
        m.ScrapeErrors + failedFlagFetches client (fetchedConfigs cfg client)) ∧
    [abortOnConfigs cfg client, abortOnEnvironments cfg client, abortOnStale cfg client,
      fullSuccess cfg client, partialSuccess cfg client].count true = 1 := by
  unfold scrapeMetrics scrapeBody abortOnConfigs abortOnEnvironments abortOnStale fullSuccess
    partialSuccess productFetchesOk fetchedConfigs failedFlagFetches
  cases hc : client.GetConfigs cfg.ProductID with
  | error e => simp [failed]
  | ok configs =>
    cases he : client.GetEnvironments cfg.ProductID with
    | error e => simp [failed]
    | ok envs =>
      cases hz : client.GetZombieFlags cfg.ProductID with
      | error e => simp [failed]
      | ok z =>
        simp only [featureFlagsLoop_errors, List.enum]
        generalize ((configs.enumFrom 0).filter
            (fun p => failed (client.GetFeatureFlags p.1 p.2.ConfigID))).length = n
        cases n with
        | zero => simp [failed]
        | succ k => simp [failed]

theorem scrapeMetrics_error_delta_witness :
    partialSuccess cfgP1 clientPartial = true ∧
    (scrapeMetrics cfgP1 clientPartial 1700000060 3 usedStore).1.ScrapeErrors = 5 + 1 :=
  ⟨by decide,
   (scrapeMetrics_error_delta cfgP1 clientPartial 1700000060 3 usedStore).2.2.2.2.1 (by decide)⟩

/-! ## C2 -/

/-- C2: when the configs, environments, stale-flag and all per-config fetches succeed
and the config ids are pairwise distinct, the configs gauge of the product holds the
number of configs, the environments gauge the number of environments, and the
feature-flags gauge of every fetched config the number of flags fetched for it. -/
theorem scrapeMetrics_success_gauges (cfg : Config) (client : ConfigCatClient) (now elapsed : Nat)
    (m : Metrics) (configs : List types.Config) (environments : List Environment)
    (zombieflags : ZombieFlag)
    (hc : client.GetConfigs cfg.ProductID = .ok configs)
    (he : client.GetEnvironments cfg.ProductID = .ok environments)
    (hz : client.GetZombieFlags cfg.ProductID = .ok zombieflags)
    (hff : ∀ (j : Nat) (c : types.Config), configs[j]? = some c →
      failed (client.GetFeatureFlags j c.ConfigID) = false)
    (hnd : (configs.map (fun c => c.ConfigID)).Nodup) :
    (scrapeMetrics cfg client now elapsed m).1.ConfigsTotal
        [cfg.ProductID, "product-" ++ cfg.ProductID] = some configs.length ∧
    (scrapeMetrics cfg client now elapsed m).1.EnvironmentsTotal
        [cfg.ProductID, "product-" ++ cfg.ProductID] = some environments.length ∧
    ∀ (j : Nat) (c : types.Config), configs[j]? = some c →
      ∃ featureFlags, client.GetFeatureFlags j c.ConfigID = .ok featureFlags ∧
        (scrapeMetrics cfg client now elapsed m).1.FeatureFlagsTotal
            [cfg.ProductID, "product-" ++ cfg.ProductID, c.ConfigID, c.Name] =
          some featureFlags.length := by
  simp only [scrapeMetrics, scrapeBody, hc, he, hz]
  refine ⟨?_, ?_, ?_⟩
  · rw [(featureFlagsLoop_frame client _ _ configs 0 _).1]
    exact GaugeVec.set_same _ _ _
  · rw [(featureFlagsLoop_frame client _ _ configs 0 _).2.1]
    exact GaugeVec.set_same _ _ _
  · intro j c hj
    have hok := hff j c hj
    have hat := featureFlagsLoop_at client cfg.ProductID ("product-" ++ cfg.ProductID) configs 0
      { m with
        ProductsTotal := 1
        ConfigsTotal := m.ConfigsTotal.set [cfg.ProductID, "product-" ++ cfg.ProductID]
          configs.length
        EnvironmentsTotal :=
          (m.EnvironmentsTotal.set [cfg.ProductID, "product-" ++ cfg.ProductID]
            environments.length)
        ZombieFlagsTotal :=
          (zombieLoop cfg.ProductID ("product-" ++ cfg.ProductID) zombieflags.Configs 0
            m.ZombieFlagsTotal).1 } hnd j c hj
    rw [Nat.zero_add] at hat
    cases hres : client.GetFeatureFlags j c.ConfigID with
    | error e => rw [hres] at hok; simp [failed] at hok
    | ok ffs =>
      rw [hres] at hat
      exact ⟨ffs, rfl, hat⟩

theorem scrapeMetrics_success_gauges_witness :
    (scrapeMetrics cfgP1 clientOk 1700000060 3 usedStore).1.ConfigsTotal
        ["p1", "product-p1"] = some 1 ∧
    (scrapeMetrics cfgP1 clientOk 1700000060 3 usedStore).1.EnvironmentsTotal
        ["p1", "product-p1"] = some 1 ∧
    (scrapeMetrics cfgP1 clientOk 1700000060 3 usedStore).1.FeatureFlagsTotal
        ["p1", "product-p1", "c1", "Config1"] = some 3 := by
  have h := scrapeMetrics_success_gauges cfgP1 clientOk 1700000060 3 usedStore
    [{ ConfigID := "c1", Name := "Config1" }] [{ EnvironmentID := "e1", Name := "Env1" }]
    { ProductID := "p1", Name := "P", Configs := [groupOf "c1" "Config1" [staleN 1, staleN 2]],
      Environments := [] }
    rfl rfl rfl (fun _ _ _ => rfl) (by decide)
  refine ⟨h.1, h.2.1, ?_⟩
  obtain ⟨ffs, hres, hg⟩ := h.2.2 0 { ConfigID := "c1", Name := "Config1" } rfl
  have hlen : ffs = [flagN 1, flagN 2, flagN 3] := by
    have h3 : clientOk.GetFeatureFlags 0 "c1" = .ok [flagN 1, flagN 2, flagN 3] := rfl
    rw [h3] at hres
    exact (Except.ok.inj hres).symm
  rw [hlen] at hg
  exact hg

/-! ## C3 -/

/-- C3, as stated, fails: a cycle whose configs fetch fails has already set the
products gauge, so on a fresh store that gauge moves from 0 to 1. -/
theorem configs_failure_changes_products_gauge :
    clientNoConfigs.GetConfigs cfgP1.ProductID = .error "status 500" ∧
    (scrapeMetrics cfgP1 clientNoConfigs 1700000000 2 Metrics.New).1.ProductsTotal ≠
      Metrics.New.ProductsTotal := by
  refine ⟨rfl, ?_⟩
  decide

/-- C3, amended: when the configs fetch fails, every key of the four gauge families
and the last-scrape-timestamp gauge keep their pre-cycle values, the products gauge
holds 1, the scrape-error counter is one higher, and the cycle returns the error. -/
theorem scrapeMetrics_configs_failure (cfg : Config) (client : ConfigCatClient) (now elapsed : Nat)
    (m : Metrics) (err : String)
    (hc : client.GetConfigs cfg.ProductID = .error err) :
    (scrapeMetrics cfg client now elapsed m).1.ConfigsTotal = m.ConfigsTotal ∧
    (scrapeMetrics cfg client now elapsed m).1.EnvironmentsTotal = m.EnvironmentsTotal ∧
    (scrapeMetrics cfg client now elapsed m).1.FeatureFlagsTotal = m.FeatureFlagsTotal ∧
    (scrapeMetrics cfg client now elapsed m).1.ZombieFlagsTotal = m.ZombieFlagsTotal ∧
    (scrapeMetrics cfg client now elapsed m).1.LastScrapeTime = m.LastScrapeTime ∧
    (scrapeMetrics cfg client now elapsed m).1.ProductsTotal = 1 ∧
    (scrapeMetrics cfg client now elapsed m).1.ScrapeErrors = m.ScrapeErrors + 1 ∧
    (scrapeMetrics cfg client now elapsed m).2 = some ("getting configs: " ++ err) := by
  simp only [scrapeMetrics, scrapeBody, hc, and_self]

theorem scrapeMetrics_configs_failure_witness :
    (scrapeMetrics cfgP1 clientNoConfigs 1700000060 3 usedStore).1.ConfigsTotal =
      usedStore.ConfigsTotal ∧
    (scrapeMetrics cfgP1 clientNoConfigs 1700000060 3 usedStore).1.LastScrapeTime = 1700000000 ∧
    (scrapeMetrics cfgP1 clientNoConfigs 1700000060 3 usedStore).1.ScrapeErrors = 5 + 1 :=
  have h := scrapeMetrics_configs_failure cfgP1 clientNoConfigs 1700000060 3 usedStore
    "status 500" rfl
  ⟨h.1, h.2.2.2.2.1, h.2.2.2.2.2.2.1⟩

/-! ## C4 -/

/-- C4: when configs, environments and stale flags are fetched and the config ids are
pairwise distinct, the cycle completes whatever subset of the per-config fetches
fails: it returns no error, the last-scrape-timestamp gauge holds the current time,
a config whose fetch succeeded has its gauge set to the size of the answer, and a
config whose fetch failed keeps the pre-cycle state of its gauge, absent included. -/
theorem scrapeMetrics_isolated_failures (cfg : Config) (client : ConfigCatClient) (now elapsed : Nat)
    (m : Metrics) (configs : List types.Config) (environments : List Environment)
    (zombieflags : ZombieFlag)
    (hc : client.GetConfigs cfg.ProductID = .ok configs)
    (he : client.GetEnvironments cfg.ProductID = .ok environments)
    (hz : client.GetZombieFlags cfg.ProductID = .ok zombieflags)
    (hnd : (configs.map (fun c => c.ConfigID)).Nodup) :
    (scrapeMetrics cfg client now elapsed m).2 = none ∧
    (scrapeMetrics cfg client now elapsed m).1.LastScrapeTime = now ∧
    (∀ (j : Nat) (c : types.Config) (featureFlags : List FeatureFlag), configs[j]? = some c →
      client.GetFeatureFlags j c.ConfigID = .ok featureFlags →
      (scrapeMetrics cfg client now elapsed m).1.FeatureFlagsTotal
          [cfg.ProductID, "product-" ++ cfg.ProductID, c.ConfigID, c.Name] =
        some featureFlags.length) ∧
    (∀ (j : Nat) (c : types.Config) (err : String), configs[j]? = some c →
      client.GetFeatureFlags j c.ConfigID = .error err →
      (scrapeMetrics cfg client now elapsed m).1.FeatureFlagsTotal
          [cfg.ProductID, "product-" ++ cfg.ProductID, c.ConfigID, c.Name] =
        m.FeatureFlagsTotal
          [cfg.ProductID, "product-" ++ cfg.ProductID, c.ConfigID, c.Name]) := by
  simp only [scrapeMetrics, scrapeBody, hc, he, hz, true_and]
  constructor
  · intro j c ffs hj hres
    have hat := featureFlagsLoop_at client cfg.ProductID ("product-" ++ cfg.ProductID) configs 0
      { m with
        ProductsTotal := 1
        ConfigsTotal := m.ConfigsTotal.set [cfg.ProductID, "product-" ++ cfg.ProductID]
          configs.length
        EnvironmentsTotal :=
          (m.EnvironmentsTotal.set [cfg.ProductID, "product-" ++ cfg.ProductID]
            environments.length)
        ZombieFlagsTotal :=
          (zombieLoop cfg.ProductID ("product-" ++ cfg.ProductID) zombieflags.Configs 0
            m.ZombieFlagsTotal).1 } hnd j c hj
    rw [Nat.zero_add, hres] at hat
    exact hat
  · intro j c err hj hres
    have hat := featureFlagsLoop_at client cfg.ProductID ("product-" ++ cfg.ProductID) configs 0
      { m with
        ProductsTotal := 1
        ConfigsTotal := m.ConfigsTotal.set [cfg.ProductID, "product-" ++ cfg.ProductID]
          configs.length
        EnvironmentsTotal :=
          (m.EnvironmentsTotal.set [cfg.ProductID, "product-" ++ cfg.ProductID]
            environments.length)
        ZombieFlagsTotal :=
          (zombieLoop cfg.ProductID ("product-" ++ cfg.ProductID) zombieflags.Configs 0
            m.ZombieFlagsTotal).1 } hnd j c hj
    rw [Nat.zero_add, hres] at hat
    exact hat

theorem scrapeMetrics_isolated_failures_witness :
    (scrapeMetrics cfgP1 clientPartial 1700000060 3 usedStore).2 = none ∧
    (scrapeMetrics cfgP1 clientPartial 1700000060 3 usedStore).1.LastScrapeTime = 1700000060 ∧
    (scrapeMetrics cfgP1 clientPartial 1700000060 3 usedStore).1.FeatureFlagsTotal
        ["p1", "product-p1", "c1", "Config1"] = some 2 ∧
    (scrapeMetrics cfgP1 clientPartial 1700000060 3 usedStore).1.FeatureFlagsTotal
        ["p1", "product-p1", "c2", "Config2"] = none :=
  have h := scrapeMetrics_isolated_failures cfgP1 clientPartial 1700000060 3 usedStore
    [{ ConfigID := "c1", Name := "Config1" }, { ConfigID := "c2", Name := "Config2" }]
    [{ EnvironmentID := "e1", Name := "Env1" }]
    { ProductID := "p1", Name := "P",
      Configs := [groupOf "c1" "Config1" [staleN 1, staleN 2],
                  groupOf "c2" "Config2" [staleN 3, staleN 4, staleN 5]],
      Environments := [] }
    rfl rfl rfl (by decide)
  ⟨h.1, h.2.1,
   h.2.2.1 0 { ConfigID := "c1", Name := "Config1" } [flagN 1, flagN 2] rfl rfl,
   (h.2.2.2 1 { ConfigID := "c2", Name := "Config2" } "status 500" rfl rfl).trans
     (by decide)⟩

/-! ## C5 -/

/-- C5: when configs, environments and stale flags are fetched and the config groups
of the report have pairwise distinct (config id, name) pairs, the zombie-flags gauge
of group `i` holds the running total, the sum of the numbers of settings of groups
`0` to `i` in report order. -/
theorem scrapeMetrics_zombie_running_total (cfg : Config) (client : ConfigCatClient)
    (now elapsed : Nat) (m : Metrics) (configs : List types.Config)
    (environments : List Environment) (zombieflags : ZombieFlag)
    (hc : client.GetConfigs cfg.ProductID = .ok configs)
    (he : client.GetEnvironments cfg.ProductID = .ok environments)
    (hz : client.GetZombieFlags cfg.ProductID = .ok zombieflags)
    (hnd : (zombieflags.Configs.map (fun g => (g.ConfigID, g.Name))).Nodup)
    (i : Nat) (zombieConfig : ZombieConfig) (hi : zombieflags.Configs[i]? = some zombieConfig) :
    (scrapeMetrics cfg client now elapsed m).1.ZombieFlagsTotal
        [cfg.ProductID, "product-" ++ cfg.ProductID, zombieConfig.ConfigID,
          zombieConfig.Name] =
      some (((zombieflags.Configs.take (i + 1)).map (fun g => g.Settings.length)).sum) := by
  simp only [scrapeMetrics, scrapeBody, hc, he, hz]
  rw [(featureFlagsLoop_frame client _ _ configs 0 _).2.2.1]
  simp only
  rw [zombieLoop_at cfg.ProductID ("product-" ++ cfg.ProductID) zombieflags.Configs 0
    m.ZombieFlagsTotal hnd i zombieConfig hi, Nat.zero_add]

theorem scrapeMetrics_zombie_running_total_witness :
    (scrapeMetrics cfgP1 clientPartial 1700000060 3 usedStore).1.ZombieFlagsTotal
        ["p1", "product-p1", "c2", "Config2"] = some (2 + 3) ∧
    (scrapeMetrics cfgP1 clientOk 1700000060 3 usedStore).1.ZombieFlagsTotal
        ["p1", "product-p1", "c1", "Config1"] = some 2 :=
  ⟨scrapeMetrics_zombie_running_total cfgP1 clientPartial 1700000060 3 usedStore
    [{ ConfigID := "c1", Name := "Config1" }, { ConfigID := "c2", Name := "Config2" }]
    [{ EnvironmentID := "e1", Name := "Env1" }]
    { ProductID := "p1", Name := "P",
      Configs := [groupOf "c1" "Config1" [staleN 1, staleN 2],
                  groupOf "c2" "Config2" [staleN 3, staleN 4, staleN 5]],
      Environments := [] }
    rfl rfl rfl (by decide) 1 (groupOf "c2" "Config2" [staleN 3, staleN 4, staleN 5]) rfl,
   scrapeMetrics_zombie_running_total cfgP1 clientOk 1700000060 3 usedStore
    [{ ConfigID := "c1", Name := "Config1" }] [{ EnvironmentID := "e1", Name := "Env1" }]
    { ProductID := "p1", Name := "P", Configs := [groupOf "c1" "Config1" [staleN 1, staleN 2]],
      Environments := [] }
    rfl rfl rfl (by decide) 0 (groupOf "c1" "Config1" [staleN 1, staleN 2]) rfl⟩

/-! ## C6 -/

/-- C6: when the configs, the environments or the stale-flag fetch fails, every key
of the four gauge families and the last-scrape-timestamp gauge have their pre-cycle
values after the cycle. -/
theorem scrapeMetrics_abort_frame (cfg : Config) (client : ConfigCatClient) (now elapsed : Nat)
    (m : Metrics)
    (h : failed (client.GetConfigs cfg.ProductID) = true ∨
      failed (client.GetEnvironments cfg.ProductID) = true ∨
      failed (client.GetZombieFlags cfg.ProductID) = true) :
    (scrapeMetrics cfg client now elapsed m).1.ConfigsTotal = m.ConfigsTotal ∧
    (scrapeMetrics cfg client now elapsed m).1.EnvironmentsTotal = m.EnvironmentsTotal ∧
    (scrapeMetrics cfg client now elapsed m).1.FeatureFlagsTotal = m.FeatureFlagsTotal ∧
    (scrapeMetrics cfg client now elapsed m).1.ZombieFlagsTotal = m.ZombieFlagsTotal ∧
    (scrapeMetrics cfg client now elapsed m).1.LastScrapeTime = m.LastScrapeTime := by
  unfold scrapeMetrics scrapeBody
  cases hc : client.GetConfigs cfg.ProductID with
  | error e => simp
  | ok configs =>
    cases he : client.GetEnvironments cfg.ProductID with
    | error e => simp
    | ok envs =>
      cases hz : client.GetZombieFlags cfg.ProductID with
      | error e => simp
      | ok z => simp [hc, he, hz, failed] at h

theorem scrapeMetrics_abort_frame_witness :
    (scrapeMetrics cfgP1 clientNoStale 1700000060 3 usedStore).1.ConfigsTotal
        ["p1", "product-p1"] = some 7 ∧
    (scrapeMetrics cfgP1 clientNoEnvironments 1700000060 3 usedStore).1.ConfigsTotal
        ["p1", "product-p1"] = some 7 ∧
    (scrapeMetrics cfgP1 clientNoStale 1700000060 3 usedStore).1.LastScrapeTime = 1700000000 :=
  have hs := scrapeMetrics_abort_frame cfgP1 clientNoStale 1700000060 3 usedStore
    (Or.inr (Or.inr rfl))
  have he := scrapeMetrics_abort_frame cfgP1 clientNoEnvironments 1700000060 3 usedStore
    (Or.inr (Or.inl rfl))
  ⟨(congrFun hs.1 ["p1", "product-p1"]).trans (by decide),
   (congrFun he.1 ["p1", "product-p1"]).trans (by decide), hs.2.2.2.2⟩

/-! ## C7 -/

/-- C7 at a store left by one successful cycle: `Reset` zeroes the products gauge,
empties the four families and keeps the counter, and the last-scrape-timestamp gauge
still holds the time of that cycle instead of zero. -/
theorem Reset_keeps_last_scrape_time :
    storeAfterFirstCycle.LastScrapeTime = 1700000000 ∧
    storeAfterFirstCycle.Reset.LastScrapeTime = 1700000000 ∧
    storeAfterFirstCycle.Reset.LastScrapeTime ≠ 0 ∧
    storeAfterFirstCycle.Reset.ProductsTotal = 0 ∧
    storeAfterFirstCycle.Reset.ConfigsTotal = GaugeVec.empty ∧
    storeAfterFirstCycle.Reset.EnvironmentsTotal = GaugeVec.empty ∧
    storeAfterFirstCycle.Reset.FeatureFlagsTotal = GaugeVec.empty ∧
    storeAfterFirstCycle.Reset.ZombieFlagsTotal = GaugeVec.empty ∧
    storeAfterFirstCycle.Reset.ScrapeErrors = storeAfterFirstCycle.ScrapeErrors := by
  refine ⟨rfl, rfl, by decide, rfl, rfl, rfl, rfl, rfl, rfl⟩

/-! ## C8 -/

/-- A cycle that gets past the three product-level fetches yields the same gauges
from any two stores whose four families agree. -/
theorem scrapeMetrics_gauges_congr (cfg : Config) (client : ConfigCatClient) (now e1 e2 : Nat)
    (m1 m2 : Metrics)
    (hok : productFetchesOk cfg client = true)
    (h1 : m1.ConfigsTotal = m2.ConfigsTotal)
    (h2 : m1.EnvironmentsTotal = m2.EnvironmentsTotal)
    (h3 : m1.FeatureFlagsTotal = m2.FeatureFlagsTotal)
    (h4 : m1.ZombieFlagsTotal = m2.ZombieFlagsTotal) :
    (scrapeMetrics cfg client now e1 m1).1.gauges =
      (scrapeMetrics cfg client now e2 m2).1.gauges := by
  unfold productFetchesOk at hok
  unfold scrapeMetrics scrapeBody Metrics.gauges
  cases hc : client.GetConfigs cfg.ProductID with
  | error e => simp [hc, failed] at hok
  | ok configs =>
    cases he : client.GetEnvironments cfg.ProductID with
    | error e => simp [he, failed] at hok
    | ok envs =>
      cases hz : client.GetZombieFlags cfg.ProductID with
      | error e => simp [hz, failed] at hok
      | ok z =>
        simp only [featureFlagsLoop_frame, h1, h2, h4, Gauges.mk.injEq, true_and, and_true]
        exact featureFlagsLoop_congr client _ _ configs 0 _ _ h3

/-- C8: for every store and every cycle in which all fetches succeed, `Reset`
followed by the cycle yields the same gauge values, for the same clock reading, as
the cycle run on a freshly constructed store. -/
theorem reset_then_scrape_eq_fresh (cfg : Config) (client : ConfigCatClient) (now e1 e2 : Nat)
    (m : Metrics) (hok : fullSuccess cfg client = true) :
    (scrapeMetrics cfg client now e1 m.Reset).1.gauges =
      (scrapeMetrics cfg client now e2 Metrics.New).1.gauges := by
  have hp : productFetchesOk cfg client = true := by
    unfold fullSuccess at hok
    exact (Bool.and_eq_true _ _ ▸ hok).1
  exact scrapeMetrics_gauges_congr cfg client now e1 e2 m.Reset Metrics.New hp rfl rfl rfl rfl

theorem reset_then_scrape_eq_fresh_witness :
    fullSuccess cfgP1 clientOk = true ∧
    (scrapeMetrics cfgP1 clientOk 1700000060 3 usedStore.Reset).1.gauges =
      (scrapeMetrics cfgP1 clientOk 1700000060 2 Metrics.New).1.gauges :=
  ⟨by decide, reset_then_scrape_eq_fresh cfgP1 clientOk 1700000060 3 2 usedStore (by decide)⟩

/-! ## C9 -/

/-- C9: a cycle, whatever its outcome, deletes no key and changes no value but the
ones it writes.  A label tuple present in the configs, environments, feature-flags or
zombie-flags family before `scrapeMetrics` is present afterwards.  Every key other
than the product's own keeps its value in the configs and in the environments family;
a feature-flags key of no fetched config and a zombie-flags key of no fetched config
group keep their values, so a config that disappeared from the remote API keeps its
last gauge values.  `Reset` leaves no key in any of the four families. -/
theorem scrapeMetrics_keeps_keys (cfg : Config) (client : ConfigCatClient) (now elapsed : Nat)
    (m : Metrics) (k : List String) :
    ((m.ConfigsTotal k).isSome = true →
      ((scrapeMetrics cfg client now elapsed m).1.ConfigsTotal k).isSome = true) ∧
    ((m.EnvironmentsTotal k).isSome = true →
      ((scrapeMetrics cfg client now elapsed m).1.EnvironmentsTotal k).isSome = true) ∧
    ((m.FeatureFlagsTotal k).isSome = true →
      ((scrapeMetrics cfg client now elapsed m).1.FeatureFlagsTotal k).isSome = true) ∧
    ((m.ZombieFlagsTotal k).isSome = true →
      ((scrapeMetrics cfg client now elapsed m).1.ZombieFlagsTotal k).isSome = true) ∧
    (k ≠ [cfg.ProductID, "product-" ++ cfg.ProductID] →
      (scrapeMetrics cfg client now elapsed m).1.ConfigsTotal k = m.ConfigsTotal k) ∧
    (k ≠ [cfg.ProductID, "product-" ++ cfg.ProductID] →
      (scrapeMetrics cfg client now elapsed m).1.EnvironmentsTotal k =
        m.EnvironmentsTotal k) ∧
    ((∀ c ∈ fetchedConfigs cfg client,
        k ≠ [cfg.ProductID, "product-" ++ cfg.ProductID, c.ConfigID, c.Name]) →
      (scrapeMetrics cfg client now elapsed m).1.FeatureFlagsTotal k =
        m.FeatureFlagsTotal k) ∧
    ((∀ g ∈ fetchedGroups cfg client,
        k ≠ [cfg.ProductID, "product-" ++ cfg.ProductID, g.ConfigID, g.Name]) →
      (scrapeMetrics cfg client now elapsed m).1.ZombieFlagsTotal k =
        m.ZombieFlagsTotal k) ∧
    m.Reset.ConfigsTotal k = none ∧ m.Reset.EnvironmentsTotal k = none ∧
    m.Reset.FeatureFlagsTotal k = none ∧ m.Reset.ZombieFlagsTotal k = none := by
  unfold scrapeMetrics scrapeBody fetchedConfigs fetchedGroups
  cases hc : client.GetConfigs cfg.ProductID with
  | error e =>
    simp [Metrics.Reset, GaugeVec.reset, GaugeVec.empty]
  | ok configs =>
    cases he : client.GetEnvironments cfg.ProductID with
    | error e => simp [Metrics.Reset, GaugeVec.reset, GaugeVec.empty]
    | ok envs =>
      cases hz : client.GetZombieFlags cfg.ProductID with
      | error e => simp [Metrics.Reset, GaugeVec.reset, GaugeVec.empty]
      | ok z =>
        simp only [featureFlagsLoop_frame]
        refine ⟨fun h => GaugeVec.set_isSome _ _ _ _ h, fun h => GaugeVec.set_isSome _ _ _ _ h,
          fun h => featureFlagsLoop_isSome client _ _ k configs 0 _ h,
          fun h => zombieLoop_isSome _ _ k z.Configs 0 _ h,
          fun h => GaugeVec.set_other _ _ _ _ h,
          fun h => GaugeVec.set_other _ _ _ _ h,
          fun h => featureFlagsLoop_untouched client _ _ k configs 0 _ h,
          fun h => zombieLoop_untouched _ _ k z.Configs 0 _ h,
          rfl, rfl, rfl, rfl⟩

theorem scrapeMetrics_keeps_keys_witness :
    (usedStore.FeatureFlagsTotal ["p1", "product-p1", "c9", "Gone"]).isSome = true ∧
    ((scrapeMetrics cfgP1 clientOk 1700000060 3 usedStore).1.FeatureFlagsTotal
      ["p1", "product-p1", "c9", "Gone"]).isSome = true ∧
    (scrapeMetrics cfgP1 clientOk 1700000060 3 usedStore).1.FeatureFlagsTotal
      ["p1", "product-p1", "c9", "Gone"] = some 12 ∧
    ((scrapeMetrics cfgP1 clientOk 1700000060 3 usedStore).1.ZombieFlagsTotal
      ["p1", "product-p1", "c9", "Gone"]).isSome = true ∧
    (scrapeMetrics cfgP1 clientOk 1700000060 3 usedStore).1.ZombieFlagsTotal
      ["p1", "product-p1", "c9", "Gone"] = some 6 ∧
    (scrapeMetrics cfgP1 clientOk 1700000060 3 usedStore).1.ConfigsTotal
      ["p1", "product-p1", "c9", "Gone"] = none :=
  have h := scrapeMetrics_keeps_keys cfgP1 clientOk 1700000060 3 usedStore
    ["p1", "product-p1", "c9", "Gone"]
  ⟨by decide, h.2.2.1 (by decide), (h.2.2.2.2.2.2.1 (by decide)).trans (by decide),
   h.2.2.2.1 (by decide), (h.2.2.2.2.2.2.2.1 (by decide)).trans (by decide),
   (h.2.2.2.2.1 (by decide)).trans (by decide)⟩

/-! ## C10 -/

/-- Every cycle adds exactly its own sample to the duration histogram. -/
theorem scrapeMetrics_ScrapeDuration (cfg : Config) (client : ConfigCatClient) (now elapsed : Nat)
    (m : Metrics) :
    (scrapeMetrics cfg client now elapsed m).1.ScrapeDuration = elapsed :: m.ScrapeDuration := by
  unfold scrapeMetrics scrapeBody
  cases client.GetConfigs cfg.ProductID with
  | error e => rfl
  | ok configs =>
    cases client.GetEnvironments cfg.ProductID with
    | error e => rfl
    | ok envs =>
      cases client.GetZombieFlags cfg.ProductID with
      | error e => rfl
      | ok z => simp only [featureFlagsLoop_frame]


/-- The number of cycles the loop runs is the number of ticks before the first
`done`, each cycle adds one sample to the duration histogram, and nothing observed
after the first `done` matters. -/
theorem selectLoop_spec (cfg : Config) (world : Nat → CycleInput) (events : List Event) :
    ∀ (n : Nat) (m : Metrics),
      (selectLoop cfg world events n m).2.length =
        (events.takeWhile (fun e => e = Event.tick)).length ∧
      (selectLoop cfg world events n m).1.ScrapeDuration.length =
        m.ScrapeDuration.length + (events.takeWhile (fun e => e = Event.tick)).length ∧
      selectLoop cfg world events n m =
        selectLoop cfg world (events.takeWhile (fun e => e = Event.tick)) n m := by
  induction events with
  | nil => intro n m; simp [selectLoop]
  | cons e rest ih =>
    intro n m
    cases e with
    | done => simp [selectLoop]
    | tick =>
      have h := ih (n + 1)
        (scrapeMetrics cfg (world n).client (world n).now (world n).elapsed m).1
      simp only [selectLoop, List.takeWhile_cons, decide_True, if_true, List.length_cons]
      refine ⟨by rw [h.1], ?_, by rw [← h.2.2]⟩
      rw [h.2.1, scrapeMetrics_ScrapeDuration, List.length_cons]
      omega

/-- C10, as stated, fails: with a scrape interval of 0 seconds `time.NewTicker` panics
before the initial scrape, so no cycle runs although a tick would have been observed. -/
theorem StartScraping_zero_interval_runs_no_cycle :
    tickerInterval { cfgP1 with ScrapeInterval := 0 } = 0 ∧
    StartScraping { cfgP1 with ScrapeInterval := 0 } (fun _ => ⟨clientOk, 1700000000, 2⟩)
      [] Metrics.New = none ∧
    StartScraping { cfgP1 with ScrapeInterval := 0 } (fun _ => ⟨clientOk, 1700000000, 2⟩)
      [Event.tick, Event.done] Metrics.New = none := by
  refine ⟨by decide, rfl, rfl⟩

/-- C10, amended: when the ticker interval is positive, `StartScraping` runs its first
cycle on the initial store before any wait, then one cycle per tick observed before
the first observed cancellation and none after it: it runs 1 plus that number of
ticks cycles, whatever errors the cycles return, and what is observed after the
cancellation changes nothing. -/
theorem StartScraping_cycles (cfg : Config) (world : Nat → CycleInput) (events : List Event)
    (m : Metrics) (hpos : 0 < tickerInterval cfg) :
    ∃ r, StartScraping cfg world events m = some r ∧
      r.2.head? =
        some (scrapeMetrics cfg (world 0).client (world 0).now (world 0).elapsed m).2 ∧
      r.2.length = 1 + (events.takeWhile (fun e => e = Event.tick)).length ∧
      r.1.ScrapeDuration.length =
        m.ScrapeDuration.length + (1 + (events.takeWhile (fun e => e = Event.tick)).length) ∧
      StartScraping cfg world events m =
        StartScraping cfg world (events.takeWhile (fun e => e = Event.tick)) m := by
  have hn : ¬ tickerInterval cfg ≤ 0 := by omega
  have h := selectLoop_spec cfg world events 1
    (scrapeMetrics cfg (world 0).client (world 0).now (world 0).elapsed m).1
  refine ⟨((selectLoop cfg world events 1
      (scrapeMetrics cfg (world 0).client (world 0).now (world 0).elapsed m).1).1,
    (scrapeMetrics cfg (world 0).client (world 0).now (world 0).elapsed m).2 ::
      (selectLoop cfg world events 1
        (scrapeMetrics cfg (world 0).client (world 0).now (world 0).elapsed m).1).2),
    by simp only [StartScraping, hn, if_false], rfl, ?_, ?_, ?_⟩
  · simp only [List.length_cons, h.1]; omega
  · simp only [h.2.1, scrapeMetrics_ScrapeDuration, List.length_cons]; omega
  · simp only [StartScraping, hn, if_false]
    rw [← h.2.2]

theorem StartScraping_cycles_witness :
    0 < tickerInterval cfgP1 ∧
    (StartScraping cfgP1
        (fun n => if n = 1 then ⟨clientNoConfigs, 1700000060, 1⟩ else ⟨clientOk, 1700000000, 2⟩)
        [Event.tick, Event.tick, Event.done, Event.tick] Metrics.New).map
      (fun r => r.2.length) = some (1 + 2) := by
  refine ⟨by decide, ?_⟩
  obtain ⟨r, hr, _, hlen, _⟩ := StartScraping_cycles cfgP1
    (fun n => if n = 1 then ⟨clientNoConfigs, 1700000060, 1⟩ else ⟨clientOk, 1700000000, 2⟩)
    [Event.tick, Event.tick, Event.done, Event.tick] Metrics.New (by decide)
  rw [hr]
  exact congrArg some hlen

/-! ## C11 -/

/-- C11: `Validate` returns an error exactly when the API key, the organization id or
the product id is empty; when it returns none all three are non-empty; `Load`
returns the error and no configuration when `Validate` fails on the configuration it
built, and every configuration `Load` returns passes `Validate`. -/
theorem Validate_error_iff (cfg : Config) (envParse : Except String Config)
    (c : cli.Context) :
    (cfg.Validate.isSome = true ↔
      cfg.ConfigCatAPIKey = "" ∨ cfg.OrganizationID = "" ∨ cfg.ProductID = "") ∧
    (cfg.Validate = none →
      cfg.ConfigCatAPIKey ≠ "" ∧ cfg.OrganizationID ≠ "" ∧ cfg.ProductID ≠ "") ∧
    (∀ (parsed : Config) (err : String), envParse = .ok parsed →
      (overrideWithFlags c parsed).Validate = some err → Load envParse c = .error err) ∧
    (∀ (loaded : Config), Load envParse c = .ok loaded → loaded.Validate = none) := by
  refine ⟨?_, ?_, ?_, ?_⟩
  · unfold Config.Validate
    by_cases h1 : cfg.ConfigCatAPIKey = ""
    · simp [h1]
    · by_cases h2 : cfg.OrganizationID = ""
      · simp [h1, h2]
      · by_cases h3 : cfg.ProductID = ""
        · simp [h1, h2, h3]
        · simp [h1, h2, h3]
  · unfold Config.Validate
    intro h
    by_cases h1 : cfg.ConfigCatAPIKey = ""
    · simp [h1] at h
    · by_cases h2 : cfg.OrganizationID = ""
      · simp [h1, h2] at h
      · by_cases h3 : cfg.ProductID = ""
        · simp [h1, h2, h3] at h
        · exact ⟨h1, h2, h3⟩
  · intro parsed err hp hv
    simp only [Load, hp, hv]
  · intro loaded hl
    unfold Load at hl
    cases hp : envParse with
    | error e => rw [hp] at hl; simp at hl
    | ok parsed =>
      rw [hp] at hl
      simp only at hl
      cases hv : (overrideWithFlags c parsed).Validate with
      | some err => rw [hv] at hl; simp at hl
      | none =>
        rw [hv] at hl
        simp only [Except.ok.injEq] at hl
        rw [← hl]
        exact hv

theorem Validate_error_iff_witness :
    cfgNoProduct.Validate.isSome = true ∧
    Load (.ok cfgNoProduct) noFlags = .error "ConfigCat Product ID is required" ∧
    cfgP1.Validate = none ∧ cfgP1.ProductID ≠ "" :=
  ⟨(Validate_error_iff cfgNoProduct (.ok cfgNoProduct) noFlags).1.mpr (Or.inr (Or.inr rfl)),
   (Validate_error_iff cfgNoProduct (.ok cfgNoProduct) noFlags).2.2.1 cfgNoProduct
     "ConfigCat Product ID is required" rfl (by decide),
   by decide,
   ((Validate_error_iff cfgP1 (.ok cfgP1) noFlags).2.1 (by decide)).2.2⟩

end ConfigCat
